import Mathlib

/-!
Verification of the products CRUD service (FastAPI + SQLAlchemy + SQLite).

Shallow embedding of the repository:
  - `models.py`     : the Pydantic input model `products` (`id : int | None`).
  - `database_model.py` : the ORM table `Product` (integer primary key `id`,
    columns `name`, `quantity`, `quality`, `decs`).
  - `main.py`       : the five route handlers `value`, `value_id`, `add_pro`,
    `update_pro`, `delete_pro`, plus `get_db` (session per request) and
    `init_db` (startup seeding), and the literal route path strings of the
    decorators.

The products table is a list of rows in storage order.  SQLite assigns a
fresh INTEGER PRIMARY KEY inserted as NULL the value one larger than the
largest id in the table (1 for an empty table); inserting or updating to a
colliding id raises IntegrityError, and SQLAlchemy refuses to flush an
UPDATE whose primary key attribute was set to None (FlushError).  These
storage behaviours are modelled explicitly below.
-/

namespace FastApiCrud

/-- Row of the `products` table, from `database_model.Product`:
`id = Column(Integer, primary_key=True)`, `name`, `quantity`, `quality`,
`decs`.  A stored row always has a concrete (non-null) id. -/
structure Product where
  id : Int
  name : String
  quantity : Int
  quality : String
  decs : String
deriving Repr, DecidableEq

/-- Pydantic request model `products` from `models.py`:
`id : int | None = None`, the other four fields required. -/
structure products where
  id : Option Int
  name : String
  quantity : Int
  quality : String
  decs : String
deriving Repr, DecidableEq

/-- The products table: the list of rows in storage order. -/
abbrev DB := List Product

/-- Storage-layer failures raised by `db.commit()` and propagated
uncaught by the handlers. -/
inductive DbError
  | integrityError
  | flushError
deriving Repr, DecidableEq

/-- SQLite rowid assignment: an INTEGER PRIMARY KEY inserted as NULL
receives a value one larger than the largest id currently in the table,
and 1 when the table is empty. -/
def nextId (db : DB) : Int :=
  (db.foldl (fun m r => max m r.id) 0) + 1

/-- The ORM object `Product(**p.model_dump())` once its primary key holds
the concrete value `i`: every column carries the payload's value. -/
def rowOf (i : Int) (p : products) : Product :=
  { id := i, name := p.name, quantity := p.quantity,
    quality := p.quality, decs := p.decs }

/-- The ORM insert `db.add(Product(**p.model_dump())); db.commit();
db.refresh(obj)`: a payload with `id = None` receives a fresh rowid, a
payload with an explicit id that collides with an existing row raises
IntegrityError; on success the refreshed stored row and the new table are
returned. -/
def insertRow (p : products) (db : DB) : Except DbError (Product × DB) :=
  match p.id with
  | none => .ok (rowOf (nextId db) p, db ++ [rowOf (nextId db) p])
  | some i =>
      if db.any (fun r => r.id == i) then
        .error .integrityError
      else
        .ok (rowOf i p, db ++ [rowOf i p])

/-- Response body of a handler: a single row, a list of rows, a
`message` dict, or an `error` dict with the given string. -/
inductive ApiResp
  | row (r : Product)
  | message (s : String)
  | err (s : String)
deriving Repr, DecidableEq

/-- Handler `value` (GET `/value`):
`db.query(Product).all()` returns every row of the table. -/
def value (db : DB) : List Product := db

/-- Handler `value_id` (GET `/value/{id}`):
`db.query(Product).filter(Product.id==id).first()`, returning the row if
present and the `error` dict `Product not found` otherwise. -/
def value_id (id : Int) (db : DB) : ApiResp :=
  match db.find? (fun r => r.id == id) with
  | some r => .row r
  | none => .err "Product not found"

/-- Handler `add_pro` (POST on the route `'/value '`): constructs
`Product(**new_product.model_dump())`, adds it, commits, refreshes and
returns the stored row. -/
def add_pro (new_product : products) (db : DB) : Except DbError (Product × DB) :=
  insertRow new_product db

/-- The `db.commit()` of `update_pro` after the `setattr` loop has copied
every key of `p.model_dump()` — `id` included — onto the row whose
primary key was `oldId`: a None primary key raises FlushError
(SQLAlchemy refuses a NULL primary key on UPDATE), an id colliding with a
different row raises IntegrityError, otherwise the row with id `oldId` is
overwritten (UPDATE ... WHERE id = oldId) and the refreshed row
returned. -/
def commitUpdate (oldId : Int) (p : products) (db : DB) :
    Except DbError (Product × DB) :=
  match p.id with
  | none => .error .flushError
  | some j =>
      if j != oldId && db.any (fun r => r.id == j) then
        .error .integrityError
      else
        .ok (rowOf j p,
             db.map (fun x => if x.id == oldId then rowOf j p else x))

/-- Handler `update_pro` (PUT `/value/{id}`): looks up the first row with
the given id; if absent returns the `error` dict without touching
storage; if present copies every field of `updated_product.model_dump()`
onto the row by `setattr` — the `id` key included — then commits,
refreshes and returns the row. -/
def update_pro (id : Int) (updated_product : products) (db : DB) :
    Except DbError (ApiResp × DB) :=
  match db.find? (fun r => r.id == id) with
  | none => .ok (.err "Product not found", db)
  | some r =>
      match commitUpdate r.id updated_product db with
      | .error e => .error e
      | .ok (r2, db2) => .ok (.row r2, db2)

/-- Handler `delete_pro` (DELETE `/value/{id}`): looks up the first row
with the given id; if absent returns the `error` dict and leaves storage
unchanged; if present deletes it (DELETE ... WHERE id = id), commits, and
returns the `message` dict. -/
def delete_pro (id : Int) (db : DB) : ApiResp × DB :=
  match db.find? (fun r => r.id == id) with
  | none => (.err "Product not found", db)
  | some _ =>
      (.message "Product deleted successfully",
       db.filter (fun r => r.id != id))

/-- A database session produced by `SessionLocal()`. -/
structure Session where
  sid : Nat
deriving Repr, DecidableEq

/-- Observable lifecycle events of a session. -/
inductive SessionEvent
  | acquire (s : Session)
  | close (s : Session)
deriving Repr, DecidableEq

/-- Dependency `get_db` as driven by the framework for one request:
`db = SessionLocal()` acquires a session, the handler body runs with it
at the `yield` (and may fail), and the `finally` clause closes the
session on either exit path.  The result and the event trace of the
request are returned. -/
def get_db {ε α : Type} (fresh : Session) (body : Session → Except ε α) :
    Except ε α × List SessionEvent :=
  let db := fresh
  let res := body db
  (res, [SessionEvent.acquire db, SessionEvent.close db])

/-- The one Pydantic object built in the module-level seed list of
`main.py`: `products(name="skipper", quantity=56, quality="medium",
decs=...)`, with `id` left at its None default. -/
def seedPayload : products :=
  { id := none, name := "skipper", quantity := 56, quality := "medium",
    decs := "the skipper is a medium quality product with a quantity of 56" }

/-- The module-level seed list `product` of `main.py`. -/
def product : List products := [seedPayload]

/-- Startup function `init_db`: opens a session, adds one ORM object per
element of `product`, and commits. -/
def init_db (db : DB) : Except DbError DB :=
  product.foldlM (fun d p => (insertRow p d).map (fun x => x.2)) db

/-- Route path strings exactly as written in the decorators of `main.py`. -/
def value_path : String := "/value"

/-- Path of the GET-by-id route. -/
def value_id_path : String := "/value/{id}"

/-- Path of the POST route: the source writes `'/value '` with a trailing
space. -/
def add_pro_path : String := "/value "

/-- Path of the PUT route. -/
def update_pro_path : String := "/value/{id}"

/-- Path of the DELETE route. -/
def delete_pro_path : String := "/value/{id}"

/-- Recogniser for the startup seed row (name, quantity and quality of
the one element of `product`). -/
def isSeedRow (r : Product) : Bool :=
  r.name == "skipper" && r.quantity == 56 && r.quality == "medium"

/-- Recogniser for acquire events in a session trace. -/
def isAcquire : SessionEvent → Bool
  | .acquire _ => true
  | .close _ => false

/-- Recogniser for close events in a session trace. -/
def isClose : SessionEvent → Bool
  | .acquire _ => false
  | .close _ => true

/-- Concrete stored row used in closed instantiations. -/
def row1 : Product :=
  { id := 1, name := "skipper", quantity := 56, quality := "medium",
    decs := "the skipper is a medium quality product with a quantity of 56" }

/-- Second concrete stored row used in closed instantiations. -/
def row2 : Product :=
  { id := 2, name := "widget", quantity := 5, quality := "high", decs := "d" }

/-- Concrete creation payload without id used in closed instantiations. -/
def payloadNoId : products :=
  { id := none, name := "widget", quantity := 5, quality := "high", decs := "d" }

/-- Concrete payload carrying the client-chosen id 7. -/
def payloadId7 : products :=
  { id := some 7, name := "gadget", quantity := 3, quality := "low", decs := "g" }

/-! Helper lemmas about rowid freshness and list lookup. -/

lemma foldl_max_le (db : DB) (a : Int) :
    a ≤ db.foldl (fun m r => max m r.id) a := by
  induction db generalizing a with
  | nil => simp
  | cons h t ih =>
      simpa [List.foldl] using le_trans (le_max_left a h.id) (ih (max a h.id))

lemma mem_le_foldl_max (db : DB) (a : Int) (r : Product) (hr : r ∈ db) :
    r.id ≤ db.foldl (fun m x => max m x.id) a := by
  induction db generalizing a with
  | nil => cases hr
  | cons h t ih =>
      rcases List.mem_cons.mp hr with he | ht
      · subst he
        simpa [List.foldl] using
          le_trans (le_max_right a r.id) (foldl_max_le t (max a r.id))
      · simpa [List.foldl] using ih (max a h.id) ht

lemma mem_lt_nextId (db : DB) (r : Product) (hr : r ∈ db) :
    r.id < nextId db :=
  lt_of_le_of_lt (mem_le_foldl_max db 0 r hr) (lt_add_one _)

lemma nextId_fresh (db : DB) (r : Product) (hr : r ∈ db) :
    r.id ≠ nextId db :=
  ne_of_lt (mem_lt_nextId db r hr)

lemma find_append_of_no_match (p : Product → Bool) (l1 l2 : DB)
    (h : ∀ x ∈ l1, p x = false) :
    List.find? p (l1 ++ l2) = List.find? p l2 := by
  induction l1 with
  | nil => rfl
  | cons a t ih =>
      have ha : p a = false := h a (List.mem_cons_self a t)
      simp only [List.cons_append, List.find?, ha]
      exact ih (fun x hx => h x (List.mem_cons_of_mem a hx))

lemma find_none_of_no_match (p : Product → Bool) (l : DB)
    (h : ∀ x ∈ l, p x = false) :
    List.find? p l = none := by
  simpa using find_append_of_no_match p l [] h

lemma init_db_eq (db : DB) :
    init_db db = .ok (db ++ [rowOf (nextId db) seedPayload]) := rfl

lemma countP_seed (db : DB) :
    (db ++ [rowOf (nextId db) seedPayload]).countP isSeedRow
      = db.countP isSeedRow + 1 := by
  simp [List.countP_append, List.countP_cons, isSeedRow, rowOf, seedPayload]

/-- C1: the claim that a successful full update on the row with id `i`
leaves the row's id equal to `i` fails on the code: the `setattr` loop of
`update_pro` copies the payload's `id` field onto the row as well, so on
the table `[row1]` (id 1) a payload carrying id 2 succeeds and both
returns and stores a row whose id is 2, while the canonical full payload
with `id = None` turns the commit into a FlushError instead of a
successful id-preserving update. -/
theorem C1_update_overwrites_primary_key :
    (update_pro 1
        { id := some 2, name := "x", quantity := 7, quality := "high",
          decs := "d" } [row1]
      = .ok (.row { id := 2, name := "x", quantity := 7, quality := "high",
                    decs := "d" },
             [{ id := 2, name := "x", quantity := 7, quality := "high",
                decs := "d" }])) ∧
    (update_pro 1
        { id := none, name := "x", quantity := 7, quality := "high",
          decs := "d" } [row1]
      = .error .flushError) :=
  ⟨rfl, rfl⟩

/-- C2: the claim that the create operation is exposed at the path
`/value` with no trailing characters fails on the code: the decorator of
`add_pro` registers the route at the string `/value` followed by a
trailing space, which differs from the collection path `value_path`. -/
theorem C2_post_route_path_has_trailing_space :
    add_pro_path = value_path ++ " " ∧ add_pro_path ≠ value_path := by
  refine ⟨rfl, ?_⟩
  decide

/-- C7: list-all returns exactly the rows currently present in the
product table — it is the identity on the storage state, so cardinality
and multiset of rows match with no filtering, omission or duplication. -/
theorem C7_list_all_returns_every_row (db : DB) :
    value db = db ∧ (value db).length = db.length ∧
    (↑(value db) : Multiset Product) = (↑db : Multiset Product) :=
  ⟨rfl, rfl, rfl⟩

/-- C7 witness: the round trip evaluated on a concrete two-row table. -/
theorem C7_list_all_witness :
    value [row1, row2] = [row1, row2] ∧
    (value [row1, row2]).length = ([row1, row2] : DB).length ∧
    (↑(value [row1, row2]) : Multiset Product)
      = (↑([row1, row2] : DB) : Multiset Product) :=
  C7_list_all_returns_every_row [row1, row2]

/-- C8: for every request, the dependency `get_db` acquires exactly one
session at request start and closes exactly that session exactly once,
whatever the handler body does at the yield point — normal result or
failure — and the body's result is passed through unchanged. -/
theorem C8_session_acquired_and_closed_once {ε α : Type}
    (s : Session) (body : Session → Except ε α) :
    (get_db s body).2 = [SessionEvent.acquire s, SessionEvent.close s] ∧
    (get_db s body).2.countP isAcquire = 1 ∧
    (get_db s body).2.countP isClose = 1 ∧
    (get_db s body).1 = body s :=
  ⟨rfl, rfl, rfl, rfl⟩

/-- C8 witness: the lifecycle evaluated on a concrete failing request
body — the session is still closed exactly once. -/
theorem C8_session_witness :
    (get_db ⟨0⟩ (fun _ => (Except.error "boom" : Except String Nat))).2
      = [SessionEvent.acquire ⟨0⟩, SessionEvent.close ⟨0⟩] ∧
    (get_db ⟨0⟩ (fun _ => (Except.error "boom" : Except String Nat))).2.countP
        isAcquire = 1 ∧
    (get_db ⟨0⟩ (fun _ => (Except.error "boom" : Except String Nat))).2.countP
        isClose = 1 ∧
    (get_db ⟨0⟩ (fun _ => (Except.error "boom" : Except String Nat))).1
      = Except.error "boom" :=
  C8_session_acquired_and_closed_once (Session.mk 0)
    (fun _ => (Except.error "boom" : Except String Nat))

/-- C10: init_db is not idempotent: on every starting table it succeeds
and appends one more seed row (name skipper, quantity 56, quality
medium), so the seed-row count rises by one per invocation and two
consecutive invocations raise it by two. -/
theorem C10_init_db_not_idempotent (db : DB) :
    init_db db = .ok (db ++ [rowOf (nextId db) seedPayload]) ∧
    (∀ db1, init_db db = .ok db1 →
       db1.countP isSeedRow = db.countP isSeedRow + 1) ∧
    (∃ db1 db2, init_db db = .ok db1 ∧ init_db db1 = .ok db2 ∧
       db2.countP isSeedRow = db.countP isSeedRow + 2) := by
  refine ⟨init_db_eq db, ?_, ?_⟩
  · intro db1 h1
    rw [init_db_eq db] at h1
    injection h1 with h1
    subst h1
    exact countP_seed db
  · refine ⟨_, _, init_db_eq db, init_db_eq _, ?_⟩
    rw [countP_seed, countP_seed]

/-- C10 witness: starting from a table that already holds the seed row,
two invocations leave three seed rows in total. -/
theorem C10_init_db_witness :
    ∃ db1 db2, init_db [row1] = .ok db1 ∧ init_db db1 = .ok db2 ∧
      db2.countP isSeedRow = ([row1] : DB).countP isSeedRow + 2 :=
  (C10_init_db_not_idempotent [row1]).2.2

/-- C3: for every creation payload whose id is absent, create stores a
new row, the storage assigns it an id distinct from every id already in
use (a stored row's id is by construction a concrete integer, never
null), and the operation returns the stored row including that id and
the payload's other fields. -/
theorem C3_create_assigns_fresh_id (p : products) (db : DB)
    (h : p.id = none) :
    ∃ r, add_pro p db = .ok (r, db ++ [r]) ∧
      (∀ r0 ∈ db, r0.id ≠ r.id) ∧
      r.name = p.name ∧ r.quantity = p.quantity ∧
      r.quality = p.quality ∧ r.decs = p.decs := by
  refine ⟨rowOf (nextId db) p, ?_, ?_, rfl, rfl, rfl, rfl⟩
  · simp [add_pro, insertRow, h]
  · intro r0 h0
    exact nextId_fresh db r0 h0

/-- C3 witness: creating `payloadNoId` on the empty table. -/
theorem C3_create_witness :
    ∃ r, add_pro payloadNoId [] = .ok (r, [] ++ [r]) ∧
      (∀ r0 ∈ ([] : DB), r0.id ≠ r.id) ∧
      r.name = payloadNoId.name ∧ r.quantity = payloadNoId.quantity ∧
      r.quality = payloadNoId.quality ∧ r.decs = payloadNoId.decs :=
  C3_create_assigns_fresh_id payloadNoId [] rfl

/-- C4: update-by-id on an id with no matching row returns the
`Product not found` error dict, leaves the whole storage state
unchanged, and never inserts a new row. -/
theorem C4_update_missing_id_leaves_storage (id : Int) (p : products)
    (db : DB) (h : ∀ r ∈ db, r.id ≠ id) :
    update_pro id p db = .ok (.err "Product not found", db) := by
  have hf : db.find? (fun r => r.id == id) = none :=
    find_none_of_no_match _ db (fun x hx => by
      rw [beq_eq_false_iff_ne]
      exact h x hx)
  simp [update_pro, hf]

/-- C4 witness: updating the absent id 9999 on a one-row table. -/
theorem C4_update_missing_witness :
    update_pro 9999 payloadNoId [row1]
      = .ok (.err "Product not found", [row1]) :=
  C4_update_missing_id_leaves_storage 9999 payloadNoId [row1] (by decide)

/-- C5: whenever create succeeds and returns a row together with the new
table, get-by-id with the returned row's id on that table returns
exactly the created row. -/
theorem C5_create_then_get_roundtrip (p : products) (db : DB)
    (r : Product) (db2 : DB) (h : add_pro p db = .ok (r, db2)) :
    value_id r.id db2 = .row r := by
  have key : db2 = db ++ [r] ∧ ∀ x ∈ db, (x.id == r.id) = false := by
    cases hp : p.id with
    | none =>
        simp only [add_pro, insertRow, hp, Except.ok.injEq,
          Prod.mk.injEq] at h
        obtain ⟨h1, h2⟩ := h
        subst h1
        refine ⟨h2.symm, ?_⟩
        intro x hx
        rw [beq_eq_false_iff_ne]
        exact nextId_fresh db x hx
    | some i =>
        simp only [add_pro, insertRow, hp] at h
        split at h
        · simp at h
        · rename_i hany
          simp only [List.any_eq_true, not_exists, not_and] at hany
          simp only [Except.ok.injEq, Prod.mk.injEq] at h
          obtain ⟨h1, h2⟩ := h
          subst h1
          refine ⟨h2.symm, ?_⟩
          intro x hx
          rw [beq_eq_false_iff_ne]
          intro hxe
          exact hany x hx (by rw [beq_iff_eq]; exact hxe)
  obtain ⟨hdb2, hno⟩ := key
  subst hdb2
  simp [value_id, find_append_of_no_match _ db [r] hno, List.find?]

/-- C5 witness: creating `payloadNoId` on a one-row table and reading
the assigned id back. -/
theorem C5_roundtrip_witness :
    value_id (rowOf (nextId [row1]) payloadNoId).id
        ([row1] ++ [rowOf (nextId [row1]) payloadNoId])
      = .row (rowOf (nextId [row1]) payloadNoId) :=
  C5_create_then_get_roundtrip payloadNoId [row1]
    (rowOf (nextId [row1]) payloadNoId)
    ([row1] ++ [rowOf (nextId [row1]) payloadNoId]) rfl

/-- C6: on a table with pairwise distinct ids, delete-by-id on a present
id removes exactly the matching row, leaves every other row unchanged
and returns the deletion message dict, while delete-by-id on an absent
id returns the `Product not found` error dict and leaves storage
unchanged. -/
theorem C6_delete_by_id (id : Int) (db : DB)
    (hnd : (db.map Product.id).Nodup) :
    ((∀ r ∈ db, r.id ≠ id) →
       delete_pro id db = (.err "Product not found", db)) ∧
    (∀ r ∈ db, r.id = id →
       ∃ l1 l2, db = l1 ++ r :: l2 ∧
         delete_pro id db
           = (.message "Product deleted successfully", l1 ++ l2)) := by
  constructor
  · intro h
    have hf : db.find? (fun r => r.id == id) = none :=
      find_none_of_no_match _ db (fun x hx => by
        rw [beq_eq_false_iff_ne]
        exact h x hx)
    simp [delete_pro, hf]
  · intro r hr hid
    obtain ⟨l1, l2, rfl⟩ := List.append_of_mem hr
    rw [List.map_append, List.nodup_append] at hnd
    obtain ⟨h1, h2, hdisj⟩ := hnd
    rw [List.map_cons, List.nodup_cons] at h2
    have hno1 : ∀ x ∈ l1, (x.id == id) = false := by
      intro x hx
      rw [beq_eq_false_iff_ne]
      intro hxe
      refine hdisj (List.mem_map_of_mem Product.id hx) ?_
      rw [List.map_cons]
      have hxr : x.id = r.id := hxe.trans hid.symm
      rw [hxr]
      exact List.mem_cons_self _ _
    have hno2 : ∀ x ∈ l2, (x.id != id) = true := by
      intro x hx
      rw [bne_iff_ne]
      intro hxe
      refine h2.1 ?_
      have hrx : r.id = x.id := hid.trans hxe.symm
      rw [hrx]
      exact List.mem_map_of_mem Product.id hx
    have hfind : List.find? (fun x => x.id == id) (l1 ++ r :: l2)
        = some r := by
      rw [find_append_of_no_match _ l1 _ hno1]
      simp [List.find?, hid]
    have hfilt : (l1 ++ r :: l2).filter (fun x => x.id != id)
        = l1 ++ l2 := by
      rw [List.filter_append, List.filter_cons]
      have hrid : (r.id != id) = false := by
        simp [hid]
      rw [hrid]
      simp only [Bool.false_eq_true, if_false]
      rw [List.filter_eq_self.mpr (fun x hx => by
            rw [bne_iff_ne]
            intro hxe
            exact (Bool.eq_false_iff.mp (hno1 x hx)) (beq_iff_eq.mpr hxe)),
          List.filter_eq_self.mpr hno2]
    exact ⟨l1, l2, rfl, by simp [delete_pro, hfind, hfilt]⟩

/-- C6 witness: deleting id 1 from a two-row table removes the first
row and keeps the second. -/
theorem C6_delete_witness :
    ∃ l1 l2, ([row1, row2] : DB) = l1 ++ row1 :: l2 ∧
      delete_pro 1 [row1, row2]
        = (.message "Product deleted successfully", l1 ++ l2) :=
  (C6_delete_by_id 1 [row1, row2] (by decide)).2 row1 (by simp) rfl

/-- C9: a creation payload whose id field holds the integer `i` is not
rejected: the value `i` is passed into the new row's id column and the
created row is returned with id `i` whenever `i` is free, while a
collision with an id already in use surfaces as the storage failure
IntegrityError, not as a validation error. -/
theorem C9_create_with_client_id (p : products) (i : Int)
    (h : p.id = some i) (db : DB) :
    ((∀ r ∈ db, r.id ≠ i) →
       add_pro p db = .ok (rowOf i p, db ++ [rowOf i p])) ∧
    ((∃ r ∈ db, r.id = i) → add_pro p db = .error .integrityError) := by
  constructor
  · intro hfree
    have hany : db.any (fun r => r.id == i) = false := by
      rw [List.any_eq_false]
      intro x hx hxe
      exact hfree x hx (beq_iff_eq.mp hxe)
    simp [add_pro, insertRow, h, hany]
  · rintro ⟨r, hr, hid⟩
    have hany : db.any (fun r => r.id == i) = true :=
      List.any_eq_true.mpr ⟨r, hr, by rw [beq_iff_eq]; exact hid⟩
    simp [add_pro, insertRow, h, hany]

/-- C9 witness: the payload with client id 7 lands unchanged on a table
where 7 is free, and collides with IntegrityError where it is taken. -/
theorem C9_client_id_witness :
    add_pro payloadId7 [row1]
      = .ok (rowOf 7 payloadId7, [row1] ++ [rowOf 7 payloadId7]) ∧
    add_pro payloadId7 [rowOf 7 payloadId7]
      = .error .integrityError :=
  ⟨(C9_create_with_client_id payloadId7 7 rfl [row1]).1 (by decide),
   (C9_create_with_client_id payloadId7 7 rfl [rowOf 7 payloadId7]).2
     ⟨rowOf 7 payloadId7, by simp, rfl⟩⟩

end FastApiCrud
